import Mathlib

/-!
# HelioSyn core: shallow embedding and verification

This file embeds the discrete-time simulation core of the HelioSyn
repository (`src/lib/smartScheduler.ts`, `src/lib/physicsModels.ts`,
`src/lib/simulationConfig.ts`, `src/lib/simulation.ts`) in Lean 4 and
proves properties of the embedded definitions.

Modelling conventions:
* JavaScript `number` is modelled by an arbitrary `LinearOrderedField`
  (instantiated at `ℚ` for executable scheduler-level statements and at
  `ℝ` for the trigonometric physics models and the simulation engine).
* Mutable `Job` objects become immutable records; the object identity of
  the TypeScript classes is modelled by a numeric `id` field, and methods
  that mutate a job return the updated record.
* A scheduler's `schedule` method returns the pair of the list of newly
  admitted jobs and the updated job collection.
-/

namespace HelioSyn

/-- Priority classes of `smartScheduler.ts` (`type Priority`). -/
inductive Priority where
  | critical
  | high
  | medium
  | low
deriving DecidableEq, Repr

/-- Job lifecycle states (`'WAITING' | 'RUNNING' | 'DONE'`). -/
inductive JobStatus where
  | WAITING
  | RUNNING
  | DONE
deriving DecidableEq, Repr

variable {α : Type} [LinearOrderedField α]

/-- The fields of the TypeScript `Job` class.  The random string `id` of
the source is replaced by a `Nat` identity token (only uniqueness is
relevant); all numeric fields live in the field `α`. -/
structure Job (α : Type) where
  id : Nat
  name : String
  powerKw : α
  duration : α
  remaining : α
  priority : Priority
  deadline : Option α
  status : JobStatus
  penalized : Bool
  startHour : Option α
  flexible : Bool
deriving DecidableEq

/-- `Job.normalizePriority`: case-insensitive normalization of the raw
priority string, defaulting to `medium`. -/
def normalizePriority (p : String) : Priority :=
  let lower := p.toLower
  if lower = "high" then .high
  else if lower = "medium" then .medium
  else if lower = "low" then .low
  else if lower = "critical" then .critical
  else .medium

/-- The `Job` constructor: `remaining` starts at `durationMin`, status at
`WAITING`, `penalized` false, `startHour` null. -/
def Job.create (id : Nat) (name : String) (powerKw durationMin : α)
    (priority : String) (deadlineHour : Option α := none)
    (flexible : Bool := true) : Job α :=
  { id := id
    name := name
    powerKw := powerKw
    duration := durationMin
    remaining := durationMin
    priority := normalizePriority priority
    deadline := deadlineHour
    status := .WAITING
    penalized := false
    startHour := none
    flexible := flexible }

/-- `Job.start(currentHour)`: a WAITING job becomes RUNNING and records
`startHour` if it was unset; otherwise no change. -/
def Job.start (j : Job α) (currentHour : α) : Job α :=
  if j.status = .WAITING then
    { j with
      status := .RUNNING
      startHour := if j.startHour = none then some currentHour else j.startHour }
  else j

/-- `Job.runStep(dtMin, currentHour)`: no-op when DONE; implicitly starts a
WAITING job; decrements `remaining` by `dtMin`, clamping at 0 and
transitioning to DONE. -/
def Job.runStep (j : Job α) (dtMin currentHour : α) : Job α :=
  if j.status = .DONE then j
  else
    let j1 := if j.status = .WAITING then j.start currentHour else j
    let r := j1.remaining - dtMin
    if r ≤ 0 then { j1 with remaining := 0, status := .DONE }
    else { j1 with remaining := r }

/-- `Job.deadlineMissed(currentHour)`: returns the boolean result together
with the updated job (the source mutates `penalized` in place). -/
def Job.deadlineMissed (j : Job α) (currentHour : α) : Bool × Job α :=
  match j.deadline with
  | none => (false, j)
  | some d =>
      if d < currentHour ∧ j.status ≠ .DONE ∧ j.penalized = false then
        (true, { j with penalized := true })
      else (false, j)

/-- `Job.urgencyScore(currentHour)`: 0 without a deadline; the sentinel 999
once the deadline has passed; otherwise hours-needed over hours-left. -/
def Job.urgencyScore (j : Job α) (currentHour : α) : α :=
  match j.deadline with
  | none => 0
  | some d =>
      let hoursUntilDeadline := d - currentHour
      let hoursNeeded := j.remaining / 60
      if hoursUntilDeadline ≤ 0 then 999
      else hoursNeeded / hoursUntilDeadline

/-! Configuration constants of `simulationConfig.ts` used by the core. -/

def SIMULATION_START_HOUR : α := 0
def SIMULATION_END_HOUR : α := 24
def TIME_STEP_MINUTES : α := 10
def MAX_DATA_HUB_POWER : α := 10
def BASELINE_BACKGROUND_LOAD : α := 3
def IDEAL_TEMP : α := 25
def THERMAL_THRESHOLD : α := 32
def HEAT_ACCUMULATION : α := 15 / 100
def THERMAL_DISSIPATION : α := 5 / 100
def TEMP_THRESHOLD : α := 25
def COOLING_FACTOR : α := 1 / 2
def COOLING_EFFICIENCY : α := 6 / 10
def COOLING_COP : α := 3
def LOAD_COOLING_FACTOR : α := 5 / 100
def MAX_SOLAR_KW : α := 8
def SOLAR_EFFICIENCY : α := 85 / 100
def GRID_CARBON_INTENSITY : α := 7 / 10
def DEADLINE_PENALTY_KWH : α := 2

/-! ## Smart scheduler (`SmartScheduler` of `smartScheduler.ts`) -/

/-- The priority-class map of `prioritizeJobs`
(`{ critical: -1, high: 0, medium: 1, low: 2 }`). -/
def pMap : Priority → Int
  | .critical => -1
  | .high => 0
  | .medium => 1
  | .low => 2

/-- The comparator passed to `jobs.sort` in `SmartScheduler.prioritizeJobs`:
priority class difference, then urgency difference beyond the 0.1
tolerance, then power draw. -/
def jobComparator (currentHour : α) (a b : Job α) : α :=
  if pMap a.priority ≠ pMap b.priority then
    ((pMap a.priority - pMap b.priority : Int) : α)
  else
    let urgencyA := a.urgencyScore currentHour
    let urgencyB := b.urgencyScore currentHour
    if 1 / 10 < |urgencyA - urgencyB| then urgencyB - urgencyA
    else a.powerKw - b.powerKw

/-- The "comes before or ties" relation induced by the comparator
(JavaScript sorts put `a` before `b` when the comparator is ≤ 0). -/
def jobLe (currentHour : α) (a b : Job α) : Prop :=
  jobComparator currentHour a b ≤ 0

instance (currentHour : α) : DecidableRel (jobLe currentHour) := fun a b =>
  inferInstanceAs (Decidable (jobComparator currentHour a b ≤ 0))

/-- `SmartScheduler.prioritizeJobs`: a stable comparator sort of the
candidate list (the JavaScript `Array.prototype.sort` is modelled by a
stable insertion sort on the comparator's ≤-0 relation). -/
def prioritizeJobs (jobs : List (Job α)) (currentHour : α) : List (Job α) :=
  jobs.insertionSort (jobLe currentHour)

/-- The admission loop of `SmartScheduler.schedule`: thermal skip for low
priority, solar-preference skip for flexible medium priority, then the
capacity check against `MAX_DATA_HUB_POWER`; skipped or rejected jobs do
not stop later, possibly smaller, jobs. -/
def scheduleLoop (solarAvailableKw currentTemp currentHour : α) :
    List (Job α) → α → List (Job α)
  | [], _ => []
  | job :: rest, totalPowerUsed =>
      if THERMAL_THRESHOLD < currentTemp ∧ job.priority = .low then
        scheduleLoop solarAvailableKw currentTemp currentHour rest totalPowerUsed
      else if job.priority = .medium ∧ solarAvailableKw < 1 ∧ job.flexible then
        scheduleLoop solarAvailableKw currentTemp currentHour rest totalPowerUsed
      else if totalPowerUsed + job.powerKw ≤ MAX_DATA_HUB_POWER then
        job :: scheduleLoop solarAvailableKw currentTemp currentHour rest
          (totalPowerUsed + job.powerKw)
      else
        scheduleLoop solarAvailableKw currentTemp currentHour rest totalPowerUsed

/-- `SmartScheduler.schedule(solarAvailableKw, currentTemp, currentHour)`:
filters the WAITING jobs, sorts them, runs the admission loop with the
accumulator starting at 0, starts the admitted jobs and returns the pair
(admitted jobs as they were at admission time, updated job collection). -/
def SmartScheduler.schedule (jobs : List (Job α))
    (solarAvailableKw currentTemp currentHour : α) :
    List (Job α) × List (Job α) :=
  let waitingJobs := jobs.filter (fun j => j.status = .WAITING)
  let sortedJobs := prioritizeJobs waitingJobs currentHour
  let admitted := scheduleLoop solarAvailableKw currentTemp currentHour sortedJobs 0
  let admittedIds := admitted.map (·.id)
  (admitted, jobs.map (fun j =>
    if admittedIds.contains j.id then j.start currentHour else j))

/-! ## Baseline scheduler (`BaselineScheduler` of `smartScheduler.ts`) -/

/-- The FIFO admission loop: the accumulator starts at the background load
and the loop `break`s at the first job that would exceed capacity. -/
def baselineLoop : List (Job α) → α → List (Job α)
  | [], _ => []
  | job :: rest, totalPower =>
      if totalPower + job.powerKw ≤ MAX_DATA_HUB_POWER then
        job :: baselineLoop rest (totalPower + job.powerKw)
      else []

/-- `BaselineScheduler.schedule`: ignores the environment, iterates the
WAITING jobs in submission order with the accumulator starting at
`BASELINE_BACKGROUND_LOAD`. -/
def BaselineScheduler.schedule (jobs : List (Job α)) (hour : α) :
    List (Job α) × List (Job α) :=
  let waiting := jobs.filter (fun j => j.status = .WAITING)
  let admitted := baselineLoop waiting BASELINE_BACKGROUND_LOAD
  let admittedIds := admitted.map (·.id)
  (admitted, jobs.map (fun j =>
    if admittedIds.contains j.id then j.start hour else j))

/-! ## The per-step job-state transformation of the simulation loop

`runSmartSimulation` keeps a `currentlyRunning` set holding exactly the
jobs in RUNNING status; each loop iteration (B) advances those jobs, (C)
asks the scheduler for admissions, and (F) runs the deadline check over
the whole catalog. `engineJobsStep` is the effect of one iteration on the
job collection under the smart policy. -/

def engineJobsStep (solar temp hour dt : α) (jobs : List (Job α)) :
    List (Job α) :=
  let advanced := jobs.map (fun j =>
    if j.status = .RUNNING then j.runStep dt hour else j)
  let afterSchedule := (SmartScheduler.schedule advanced solar temp hour).2
  afterSchedule.map (fun j => (j.deadlineMissed hour).2)

/-- Iterating `engineJobsStep` over a list of `(solar, temp, hour)`
environment samples with a fixed step length. -/
def runEngineSteps (steps : List (α × α × α)) (dt : α)
    (jobs : List (Job α)) : List (Job α) :=
  steps.foldl (fun js s => engineJobsStep s.1 s.2.1 s.2.2 dt js) jobs

/-- Sum of the power draws of a list of jobs. -/
def sumPow (l : List (Job α)) : α := (l.map (·.powerKw)).sum

/-! ## Call sequences on a single job

For lifetime statements (claims about "every call sequence") a job is
driven by an arbitrary sequence of its three mutating operations. -/

inductive JobOp (α : Type) where
  | start (hour : α)
  | runStep (dtMin hour : α)
  | check (hour : α)

/-- Apply one operation to a job, returning how many times
`deadlineMissed` reported `true` (0 or 1) and the updated job. -/
def applyOp (j : Job α) : JobOp α → Nat × Job α
  | .start h => (0, j.start h)
  | .runStep dt h => (0, j.runStep dt h)
  | .check h =>
      let r := j.deadlineMissed h
      (if r.1 then 1 else 0, r.2)

/-- Run a sequence of operations, accumulating the number of `true`
results of `deadlineMissed`. -/
def runOps (j : Job α) : List (JobOp α) → Nat × Job α
  | [] => (0, j)
  | op :: ops =>
      let r := applyOp j op
      let rest := runOps r.2 ops
      (r.1 + rest.1, rest.2)

/-- Fold a list of `(dtMin, hour)` pairs through `Job.runStep`. -/
def applyRuns (j : Job α) (dts : List (α × α)) : Job α :=
  dts.foldl (fun j' p => j'.runStep p.1 p.2) j

/-! ## Job specifications and job construction (`runSmartSimulation`, step 1)

The appliance records handed to the simulation entry point, as described
by the external interface: `{name, powerKw, durationHours, priority,
deadlineHour (nullable), flexible}`.  The entry point reads `name`,
`power`, `duration`, `priority` and `flexible` (`deadlineHour` is part of
the interface but, as proved below, never read). -/

structure ApplianceSpec (α : Type) where
  name : String
  power : α
  duration : Option α
  priority : String
  deadlineHour : Option α := none
  flexible : Option Bool := none

/-- The job construction in `runSmartSimulation`:
`new Job(app.name, parseFloat(app.power), app.duration ? app.duration * 60
: 120, app.priority, 18, app.flexible !== false)`.  JavaScript truthiness
of `app.duration` (absent or `0` both select the 120-minute default) is
modelled on the `Option` value; `parseFloat` of an already numeric power
is the identity. -/
def buildJob (id : Nat) (app : ApplianceSpec α) : Job α :=
  Job.create id app.name app.power
    (match app.duration with
     | none => 120
     | some d => if d = 0 then 120 else d * 60)
    app.priority (some 18)
    (if app.flexible = some false then false else true)

/-! ## The ordering property claimed for the Smart Scheduler's sort

`claimedSortRel hour a b` is the relation the specification asserts
between a job `a` placed anywhere before a job `b` in the sorted
candidate list: strictly-earlier priority class first; within a class,
descending urgency when the urgency gap exceeds the 0.1 tolerance,
otherwise ascending power draw. -/

def claimedSortRel (hour : α) (a b : Job α) : Prop :=
  (pMap a.priority ≠ pMap b.priority → pMap a.priority < pMap b.priority) ∧
  (pMap a.priority = pMap b.priority →
    ((1 / 10 < |a.urgencyScore hour - b.urgencyScore hour| →
        b.urgencyScore hour < a.urgencyScore hour) ∧
     (|a.urgencyScore hour - b.urgencyScore hour| ≤ 1 / 10 →
        a.powerKw ≤ b.powerKw)))

instance (hour : α) : DecidableRel (claimedSortRel hour) := fun _ _ =>
  instDecidableAnd

/-- The claimed property of the whole sorted list: every earlier/later
pair satisfies `claimedSortRel`. -/
def claimedSortSpec (hour : α) (l : List (Job α)) : Prop :=
  l.Pairwise (claimedSortRel hour)

end HelioSyn

namespace HelioSyn

/-! ## Physics models (`physicsModels.ts`), over `ℝ` -/

noncomputable def D2R : ℝ := Real.pi / 180

/-- Declination angle `delta` (degrees):
`23.45 * sin(360/365 * (284 + dayOfYear) * D2R)`. -/
noncomputable def solarDeclination (dayOfYear : ℝ) : ℝ :=
  23.45 * Real.sin ((360 / 365) * (284 + dayOfYear) * D2R)

/-- The sine of the solar altitude computed inside `calculateIrradiance`:
`sin(lat)sin(delta) + cos(lat)cos(delta)cos(omega)` with the hour angle
`omega = 15 * (hour - 12)` degrees. -/
noncomputable def solarSinAlpha (dayOfYear hour latitude : ℝ) : ℝ :=
  let latRad := latitude * D2R
  let deltaRad := solarDeclination dayOfYear * D2R
  let omegaRad := (15 * (hour - 12)) * D2R
  Real.sin latRad * Real.sin deltaRad +
    Real.cos latRad * Real.cos deltaRad * Real.cos omegaRad

/-- Beam normal irradiance `I_bn = A * exp(-B / sin(alpha))` with the
"average clear sky" constants `A = 1160`, `B = 0.168`. -/
noncomputable def beamNormalIrradiance (sinAlpha : ℝ) : ℝ :=
  1160 * Real.exp (-(0.168) / sinAlpha)

/-- The incidence-angle cosine for a south-facing panel:
`sin(lat - tilt)sin(delta) + cos(lat - tilt)cos(delta)cos(omega)`. -/
noncomputable def incidenceCosTheta (dayOfYear hour latitude : ℝ)
    (tilt : Option ℝ) : ℝ :=
  let deltaRad := solarDeclination dayOfYear * D2R
  let omegaRad := (15 * (hour - 12)) * D2R
  let effLatRad := (latitude - tilt.getD latitude) * D2R
  Real.sin effLatRad * Real.sin deltaRad +
    Real.cos effLatRad * Real.cos deltaRad * Real.cos omegaRad

/-- `calculateIrradiance(dayOfYear, hour, latitude, tilt?)`: ASHRAE
clear-sky plane-of-array irradiance; 0 when the sun is at or below the
horizon; beam, diffuse (view-factor model, `C = 0.095`) and
ground-reflected (albedo 0.2) components summed and floored at 0.  (The
unused local `alpha = asin(sinAlpha)` of the source is omitted.) -/
noncomputable def calculateIrradiance (dayOfYear hour latitude : ℝ)
    (tilt : Option ℝ := none) : ℝ :=
  let tiltRad := tilt.getD latitude * D2R
  let sinAlpha := solarSinAlpha dayOfYear hour latitude
  if sinAlpha ≤ 0 then 0
  else
    let Ibn := beamNormalIrradiance sinAlpha
    let I_beam := Ibn * max 0 (incidenceCosTheta dayOfYear hour latitude tilt)
    let I_diffuse := 0.095 * Ibn * ((1 + Real.cos tiltRad) / 2)
    let I_reflected := Ibn * (sinAlpha + 0.095) * 0.2 * ((1 - Real.cos tiltRad) / 2)
    max 0 (I_beam + I_diffuse + I_reflected)

/-- `getSolarPower(hour, maxPowerKw, latitude, dayOfYear)`: irradiance at
tilt = latitude, normalized against 1000 W/m² and scaled by the
performance ratio. -/
noncomputable def getSolarPower (hour maxPowerKw latitude dayOfYear : ℝ) : ℝ :=
  maxPowerKw * (calculateIrradiance dayOfYear hour latitude (some latitude) / 1000) *
    (SOLAR_EFFICIENCY : ℝ)

/-- The remainder `a % b` of JavaScript for a non-negative dividend
(the only case arising in the engine, where hours stay in `[0, 24)`). -/
noncomputable def jsMod (a b : ℝ) : ℝ := a - b * (⌊a / b⌋ : ℤ)

/-- `getAmbientTemp(hour, minTemp, maxTemp)`: cosine diurnal model with
the peak at hour 14. -/
noncomputable def getAmbientTemp (hour minTemp maxTemp : ℝ) : ℝ :=
  let h := jsMod hour 24
  let avg := (minTemp + maxTemp) / 2
  let amp := (maxTemp - minTemp) / 2
  avg + amp * Real.cos ((h - 14) * (2 * Real.pi / 24))

/-- `getCoolingPowerKw(hubTemp, computeLoadKw)`: 0 at or below the
threshold, otherwise the thermal requirement over the COP, clamped
non-negative. -/
noncomputable def getCoolingPowerKw (hubTemp computeLoadKw : ℝ) : ℝ :=
  if hubTemp ≤ (TEMP_THRESHOLD : ℝ) then 0
  else
    let coolingReq := (COOLING_FACTOR : ℝ) * (hubTemp - TEMP_THRESHOLD) +
      (LOAD_COOLING_FACTOR : ℝ) * computeLoadKw
    max 0 (coolingReq / COOLING_COP)

/-! ## Simulation engine (`simulation.ts`), over `ℝ` -/

/-- `getGridPrice(hour)`: time-of-use price bands. -/
noncomputable def getGridPrice (hour : ℝ) : ℝ :=
  if hour < 6 then 4
  else if 18 ≤ hour ∧ hour < 22 then 12
  else 8

/-- A parsed CSV data point (`StandardizedPoint` of `csvParser.ts`); the
`Number(...)`-converted timestamp is carried directly as an optional
real; the `extras` record is not read by the engine and is omitted. -/
structure StandardizedPoint where
  timestamp : Option ℝ
  value : ℝ

/-- `createLookup(data)`: hour-keyed lookup (a later entry with the same
timestamp overwrites an earlier one, hence the `reverse`), falling back
to floor-of-hour index lookup, then to `null`. -/
noncomputable def createLookup (data : List StandardizedPoint) :
    ℝ → Option ℝ := fun h =>
  if data.isEmpty then none
  else
    match data.reverse.find? (fun p => decide (p.timestamp = some h)) with
    | some p => some p.value
    | none =>
        let idx : ℤ := ⌊h⌋
        if idx < 0 then none
        else
          match data.get? idx.toNat with
          | some p => some p.value
          | none => none

/-- The optional scalar configuration of the entry point. -/
structure SimConfig where
  maxSolarKw : Option ℝ := none
  minTemp : Option ℝ := none
  maxTemp : Option ℝ := none
  latitude : Option ℝ := none
  dayOfYear : Option ℝ := none

/-- The per-step time series collected by the engine. -/
structure SimLogs where
  time : List ℝ
  solar : List ℝ
  grid : List ℝ
  temp : List ℝ
  cooling : List ℝ
  cost : List ℝ

/-- The mutable state of the simulation loop.  The `currentlyRunning`
set of job references is modelled by the list of their ids. -/
structure SimState where
  jobs : List (Job ℝ)
  runningIds : List Nat
  gridEnergy : ℝ
  solarEnergy : ℝ
  coolingEnergy : ℝ
  carbon : ℝ
  slaViolations : Nat
  accumulatedCost : ℝ
  currentTemp : ℝ
  currentHour : ℝ
  logs : SimLogs

/-- Status of the job with a given id in a collection. -/
noncomputable def statusOf (jobs : List (Job ℝ)) (i : Nat) : Option JobStatus :=
  (jobs.find? (fun j => j.id == i)).map (·.status)

/-- Step F of the loop: run `deadlineMissed` over the whole catalog,
counting the jobs newly flagged this step. -/
noncomputable def deadlinePass (hour : ℝ) : List (Job ℝ) → Nat × List (Job ℝ)
  | [] => (0, [])
  | j :: rest =>
      let r := j.deadlineMissed hour
      let next := deadlinePass hour rest
      ((if r.1 then 1 else 0) + next.1, r.2 :: next.2)

/-- One iteration of the `while (currentHour < SIMULATION_END_HOUR)` loop
of `runSmartSimulation`: (A) environment sampling with historical-data
preference, (B) advancing the running set, (C) the scheduling decision,
(D) power and thermal physics, (E) metric accounting and logs, (F) the
deadline sweep, then the time advance. -/
noncomputable def simStep (useSmart : Bool) (getSolar getTemp : ℝ → Option ℝ)
    (config : SimConfig) (s : SimState) : SimState :=
  let solarAvailable := match getSolar s.currentHour with
    | some v => v
    | none => getSolarPower s.currentHour (config.maxSolarKw.getD MAX_SOLAR_KW)
        (config.latitude.getD 21) (config.dayOfYear.getD 172)
  let ambientTemp := match getTemp s.currentHour with
    | some v => v
    | none => getAmbientTemp s.currentHour (config.minTemp.getD 26)
        (config.maxTemp.getD 42)
  let jobsB := s.jobs.map (fun j =>
    if s.runningIds.contains j.id then j.runStep TIME_STEP_MINUTES s.currentHour
    else j)
  let runningB := s.runningIds.filter (fun i =>
    !(statusOf jobsB i == some .DONE))
  let schedRes :=
    if useSmart then
      SmartScheduler.schedule jobsB solarAvailable s.currentTemp s.currentHour
    else BaselineScheduler.schedule jobsB s.currentHour
  let jobsC := schedRes.2
  let newIds := (schedRes.1.map (·.id)).filter (fun i =>
    !(runningB.contains i) && !(statusOf jobsC i == some .DONE))
  let runningC := runningB ++ newIds
  let computeLoad := sumPow (jobsC.filter (fun j => runningC.contains j.id))
  let solarUsed := min computeLoad solarAvailable
  let gridUsed := max 0 (computeLoad - solarUsed)
  let coolingNeeded := getCoolingPowerKw s.currentTemp computeLoad
  let tempChange := (HEAT_ACCUMULATION : ℝ) * computeLoad -
    (COOLING_EFFICIENCY : ℝ) * coolingNeeded -
    (THERMAL_DISSIPATION : ℝ) * (s.currentTemp - ambientTemp)
  let newTemp := s.currentTemp + tempChange
  let currentGridUse := gridUsed + coolingNeeded
  let dtHours : ℝ := TIME_STEP_MINUTES / 60
  let stepCost := currentGridUse * dtHours * getGridPrice s.currentHour
  let dl := deadlinePass s.currentHour jobsC
  { jobs := dl.2
    runningIds := runningC
    gridEnergy := s.gridEnergy + currentGridUse * dtHours
    solarEnergy := s.solarEnergy + solarUsed * dtHours
    coolingEnergy := s.coolingEnergy + coolingNeeded * dtHours
    carbon := s.carbon + currentGridUse * dtHours * GRID_CARBON_INTENSITY
    slaViolations := s.slaViolations + dl.1
    accumulatedCost := s.accumulatedCost + stepCost
    currentTemp := newTemp
    currentHour := s.currentHour + dtHours
    logs := { time := s.logs.time ++ [s.currentHour]
              solar := s.logs.solar ++ [solarUsed]
              grid := s.logs.grid ++ [currentGridUse]
              temp := s.logs.temp ++ [newTemp]
              cooling := s.logs.cooling ++ [coolingNeeded]
              cost := s.logs.cost ++ [s.accumulatedCost + stepCost] } }

/-- The simulation loop: iterate `simStep` while `currentHour` is below
the end hour.  The loop of the source always terminates after
`(24 - 0) / (10/60) = 144` iterations, so any fuel ≥ 144 realizes it. -/
noncomputable def simLoop (useSmart : Bool) (getSolar getTemp : ℝ → Option ℝ)
    (config : SimConfig) : Nat → SimState → SimState
  | 0, s => s
  | n + 1, s =>
      if s.currentHour < (SIMULATION_END_HOUR : ℝ) then
        simLoop useSmart getSolar getTemp config n
          (simStep useSmart getSolar getTemp config s)
      else s

/-- JavaScript division producing an IEEE non-finite value on a zero
denominator: `none` stands for the NaN (`0/0`) and `±Infinity` (`x/0`)
results, `some` for the finite quotient. -/
noncomputable def jsDiv (a b : ℝ) : Option ℝ :=
  if b = 0 then none else some (a / b)

structure EnergyMetrics where
  solar : ℝ
  grid : ℝ
  cooling : ℝ
  total : ℝ
  solarPct : Option ℝ

structure CostMetrics where
  total : ℝ
  grid : ℝ
  penalty : ℝ

structure SlaMetrics where
  violations : Nat
  penaltyKwh : ℝ

structure TimelineEntry where
  name : String
  startHour : Option ℝ
  duration : ℝ
  priority : Priority
  status : JobStatus

/-- The metrics record returned to the caller. -/
structure SchedulerMetrics where
  energy : EnergyMetrics
  cost : CostMetrics
  carbon : ℝ
  sla : SlaMetrics
  timeline : List TimelineEntry
  logs : SimLogs

/-- `runSmartSimulation(appliances, files, config, useSmart)`: builds the
jobs (ids by catalog position), runs the loop from hour 0 with the
facility at `IDEAL_TEMP`, and assembles the metrics record; `energy.grid`
is the compute-only grid energy, `energy.solarPct` the unguarded
percentage quotient. -/
noncomputable def runSmartSimulation (appliances : List (ApplianceSpec ℝ))
    (solarData weatherData : List StandardizedPoint)
    (config : SimConfig) (useSmart : Bool) : SchedulerMetrics :=
  let jobs0 := appliances.enum.map (fun p => buildJob p.1 p.2)
  let getSolar := createLookup solarData
  let getTemp := createLookup weatherData
  let init : SimState :=
    { jobs := jobs0, runningIds := [], gridEnergy := 0, solarEnergy := 0
      coolingEnergy := 0, carbon := 0, slaViolations := 0
      accumulatedCost := 0, currentTemp := IDEAL_TEMP
      currentHour := SIMULATION_START_HOUR
      logs := ⟨[], [], [], [], [], []⟩ }
  let final := simLoop useSmart getSolar getTemp config 1000 init
  { energy :=
      { solar := final.solarEnergy
        grid := final.gridEnergy - final.coolingEnergy
        cooling := final.coolingEnergy
        total := final.solarEnergy + final.gridEnergy
        solarPct := (jsDiv final.solarEnergy
          (final.solarEnergy + final.gridEnergy)).map (· * 100) }
    cost := { total := final.accumulatedCost, grid := final.accumulatedCost
              penalty := 0 }
    carbon := final.carbon
    sla := { violations := final.slaViolations
             penaltyKwh := (final.slaViolations : ℝ) * DEADLINE_PENALTY_KWH }
    timeline := final.jobs.map (fun j =>
      { name := j.name, startHour := j.startHour, duration := j.duration / 60
        priority := j.priority, status := j.status })
    logs := final.logs }

/-- The concrete historical input used to witness the NaN percentage: 24
hourly samples of 5 kW solar output. -/
noncomputable def constSolarData : List StandardizedPoint :=
  (List.range 24).map (fun i : ℕ => { timestamp := some ((i : ℕ) : ℝ), value := 5 })

/-- 24 hourly ambient-temperature samples pinned at 25 °C, never above
the cooling threshold. -/
noncomputable def constTempData : List StandardizedPoint :=
  (List.range 24).map (fun i : ℕ => { timestamp := some ((i : ℕ) : ℝ), value := 25 })

/-! ## Concrete inputs used by counterexamples and witnesses -/

/-- A job already RUNNING at 10 kW. -/
def jobC1run : Job ℚ :=
  { id := 0, name := "already-running", powerKw := 10, duration := 60,
    remaining := 60, priority := .critical, deadline := none,
    status := .RUNNING, penalized := false, startHour := none,
    flexible := true }

/-- A WAITING critical job of 10 kW. -/
def jobC1wait : Job ℚ :=
  { id := 1, name := "incoming", powerKw := 10, duration := 60,
    remaining := 60, priority := .critical, deadline := none,
    status := .WAITING, penalized := false, startHour := none,
    flexible := true }

/-- A job specification carrying an explicit `deadlineHour` of 5. -/
def appC2 : ApplianceSpec ℚ :=
  { name := "washer", power := 2, duration := some 2, priority := "high",
    deadlineHour := some 5, flexible := none }

/-- A WAITING job with deadline 3, for exercising `deadlineMissed`. -/
def jobC3 : Job ℚ :=
  { id := 0, name := "late", powerKw := 1, duration := 60, remaining := 60,
    priority := .high, deadline := some 3, status := .WAITING,
    penalized := false, startHour := none, flexible := true }

/-- A call sequence containing two deadline checks past the deadline. -/
def opsC3 : List (JobOp ℚ) :=
  [.check 5, .runStep 10 5, .check 6, .start 6, .check 7]

/-- A sequence of two advances totalling 70 minutes. -/
def dtsC4 : List (ℚ × ℚ) := [(30, 0), (40, 1)]

/-- A WAITING job with deadline 10 and one hour of work left. -/
def jobC5 : Job ℚ :=
  { id := 0, name := "urgent", powerKw := 1, duration := 60, remaining := 60,
    priority := .high, deadline := some 10, status := .WAITING,
    penalized := false, startHour := none, flexible := true }

/-- Three WAITING jobs for the baseline FIFO: 5 kW, 8 kW, then 1 kW. -/
def jobC6a : Job ℚ :=
  { id := 0, name := "first", powerKw := 5, duration := 60, remaining := 60,
    priority := .low, deadline := none, status := .WAITING,
    penalized := false, startHour := none, flexible := true }

def jobC6b : Job ℚ :=
  { id := 1, name := "second", powerKw := 8, duration := 60, remaining := 60,
    priority := .critical, deadline := none, status := .WAITING,
    penalized := false, startHour := none, flexible := true }

def jobC6c : Job ℚ :=
  { id := 2, name := "third", powerKw := 1, duration := 60, remaining := 60,
    priority := .critical, deadline := none, status := .WAITING,
    penalized := false, startHour := none, flexible := true }

/-- A medium-priority flexible WAITING job. -/
def jobC7 : Job ℚ :=
  { id := 0, name := "solar-preferring", powerKw := 2, duration := 60,
    remaining := 60, priority := .medium, deadline := none,
    status := .WAITING, penalized := false, startHour := none,
    flexible := true }

/-- Two simulation steps with zero solar availability. -/
def stepsC7 : List (ℚ × ℚ × ℚ) := [(0, 20, 1), (0, 20, 2)]

/-- Equal-priority jobs whose pairwise urgency gaps are 0.09, 0.09 and
0.18: urgency scores at hour 0 are 1/100, 1/10 and 19/100. -/
def jobC8a : Job ℚ :=
  { id := 0, name := "a", powerKw := 1, duration := 60, remaining := 60,
    priority := .high, deadline := some 100, status := .WAITING,
    penalized := false, startHour := none, flexible := true }

def jobC8b : Job ℚ :=
  { id := 1, name := "b", powerKw := 2, duration := 60, remaining := 60,
    priority := .high, deadline := some 10, status := .WAITING,
    penalized := false, startHour := none, flexible := true }

def jobC8c : Job ℚ :=
  { id := 2, name := "c", powerKw := 3, duration := 114, remaining := 114,
    priority := .high, deadline := some 10, status := .WAITING,
    penalized := false, startHour := none, flexible := true }

end HelioSyn

namespace HelioSyn

/-! ## Job-level lemmas -/

variable {α : Type} [LinearOrderedField α]

theorem start_fields (j : Job α) (h : α) :
    (j.start h).id = j.id ∧ (j.start h).remaining = j.remaining ∧
    (j.start h).duration = j.duration ∧ (j.start h).penalized = j.penalized ∧
    (j.start h).priority = j.priority ∧ (j.start h).flexible = j.flexible ∧
    (j.start h).powerKw = j.powerKw := by
  unfold Job.start; split <;> simp

theorem runStep_fields (j : Job α) (dt h : α) :
    (j.runStep dt h).id = j.id ∧ (j.runStep dt h).duration = j.duration ∧
    (j.runStep dt h).penalized = j.penalized ∧
    (j.runStep dt h).priority = j.priority ∧
    (j.runStep dt h).flexible = j.flexible ∧
    (j.runStep dt h).powerKw = j.powerKw := by
  simp only [Job.runStep, Job.start]
  split_ifs <;> simp

theorem deadlineMissed_fields (j : Job α) (h : α) :
    ((j.deadlineMissed h).2).id = j.id ∧
    ((j.deadlineMissed h).2).status = j.status ∧
    ((j.deadlineMissed h).2).priority = j.priority ∧
    ((j.deadlineMissed h).2).flexible = j.flexible ∧
    ((j.deadlineMissed h).2).deadline = j.deadline ∧
    ((j.deadlineMissed h).2).powerKw = j.powerKw := by
  rcases hd : j.deadline with _ | d <;>
    simp only [Job.deadlineMissed, hd] <;>
    [simp; (split_ifs <;> simp [hd])]

theorem runStep_of_done (j : Job α) (dt h : α) (hs : j.status = .DONE) :
    j.runStep dt h = j := by
  simp [Job.runStep, hs]

theorem runStep_remaining (j : Job α) (dt h : α) (hdt : 0 ≤ dt)
    (hr : 0 ≤ j.remaining) :
    (j.runStep dt h).remaining ≤ j.remaining ∧
      0 ≤ (j.runStep dt h).remaining := by
  simp only [Job.runStep, Job.start]
  split_ifs <;> simp_all <;> linarith

theorem runStep_not_done (j : Job α) (dt h : α) (hs : j.status ≠ .DONE) :
    (j.runStep dt h).remaining = 0 ∧ (j.runStep dt h).status = .DONE ∧
        j.remaining - dt ≤ 0 ∨
      (j.runStep dt h).remaining = j.remaining - dt ∧
        (j.runStep dt h).status ≠ .DONE ∧ 0 < j.remaining - dt := by
  simp only [Job.runStep, Job.start]
  split_ifs <;> simp_all

theorem deadlineMissed_penalized (j : Job α) (h : α) :
    j.penalized = true →
      (j.deadlineMissed h).1 = false ∧
        ((j.deadlineMissed h).2).penalized = true := by
  intro hp
  rcases hd : j.deadline with _ | d <;>
    simp only [Job.deadlineMissed, hd] <;>
    [simp [hp]; (split_ifs with hc <;> simp_all)]

theorem applyOp_penalized (j : Job α) (op : JobOp α) :
    j.penalized = true →
      (applyOp j op).1 = 0 ∧ ((applyOp j op).2).penalized = true := by
  intro hp
  cases op with
  | start h => simpa [applyOp, (start_fields j h).2.2.2.1] using hp
  | runStep dt h => simpa [applyOp, (runStep_fields j dt h).2.2.1] using hp
  | check h =>
      have := deadlineMissed_penalized j h hp
      simp [applyOp, this.1, this.2]

theorem runOps_penalized (ops : List (JobOp α)) :
    ∀ j : Job α, j.penalized = true →
      (runOps j ops).1 = 0 ∧ ((runOps j ops).2).penalized = true := by
  induction ops with
  | nil => intro j hp; simpa [runOps] using hp
  | cons op ops ih =>
      intro j hp
      have h1 := applyOp_penalized j op hp
      have h2 := ih (applyOp j op).2 h1.2
      simp [runOps, h1.1, h2.1, h2.2]

theorem applyOp_count (j : Job α) (op : JobOp α) :
    (applyOp j op).1 ≤ 1 ∧
      ((applyOp j op).1 = 1 → ((applyOp j op).2).penalized = true) := by
  cases op with
  | start h => simp [applyOp]
  | runStep dt h => simp [applyOp]
  | check h =>
      rcases hd : j.deadline with _ | d <;>
        simp only [applyOp, Job.deadlineMissed, hd] <;>
        [simp; (split_ifs <;> simp_all)]

theorem runOps_count_le_one (ops : List (JobOp α)) :
    ∀ j : Job α, (runOps j ops).1 ≤ 1 := by
  induction ops with
  | nil => intro j; simp [runOps]
  | cons op ops ih =>
      intro j
      have hc := applyOp_count j op
      rcases Nat.lt_or_ge (applyOp j op).1 1 with h1 | h1
      · have : (applyOp j op).1 = 0 := Nat.lt_one_iff.mp h1
        simpa [runOps, this] using ih (applyOp j op).2
      · have he : (applyOp j op).1 = 1 := le_antisymm hc.1 h1
        have hp := hc.2 he
        have := runOps_penalized ops (applyOp j op).2 hp
        simp [runOps, he, this.1]

/-! ## Advance-sequence lemmas for the lifecycle invariant -/

theorem applyRuns_duration (dts : List (α × α)) :
    ∀ j : Job α, (applyRuns j dts).duration = j.duration := by
  induction dts with
  | nil => intro j; rfl
  | cons p dts ih =>
      intro j
      have := (runStep_fields j p.1 p.2).2.1
      simp [applyRuns] at ih ⊢
      rw [ih, this]

theorem runStep_inv (j : Job α) (dt h s : α) (hdt : 0 ≤ dt) :
    ((j.status ≠ .DONE ∧ j.remaining = j.duration - s ∧ s < j.duration) ∨
      (j.status = .DONE ∧ j.remaining = 0 ∧ j.duration ≤ s)) →
    (((j.runStep dt h).status ≠ .DONE ∧
        (j.runStep dt h).remaining = (j.runStep dt h).duration - (s + dt) ∧
        s + dt < (j.runStep dt h).duration) ∨
      ((j.runStep dt h).status = .DONE ∧ (j.runStep dt h).remaining = 0 ∧
        (j.runStep dt h).duration ≤ s + dt)) := by
  intro hinv
  have hdur := (runStep_fields j dt h).2.1
  rcases hinv with ⟨hs, hr, hlt⟩ | ⟨hs, hr, hle⟩
  · rcases runStep_not_done j dt h hs with ⟨h0, hD, hle'⟩ | ⟨hrem, hnD, hpos⟩
    · right
      refine ⟨hD, h0, ?_⟩
      rw [hdur]; linarith
    · left
      refine ⟨hnD, ?_, ?_⟩ <;> rw [hdur] <;> [skip; linarith]
      rw [hrem, hr]; ring
  · right
    rw [runStep_of_done j dt h hs]
    exact ⟨hs, hr, by linarith⟩

theorem applyRuns_inv (dts : List (α × α)) :
    ∀ (j : Job α) (s : α), (∀ p ∈ dts, 0 ≤ p.1) →
    ((j.status ≠ .DONE ∧ j.remaining = j.duration - s ∧ s < j.duration) ∨
      (j.status = .DONE ∧ j.remaining = 0 ∧ j.duration ≤ s)) →
    (((applyRuns j dts).status ≠ .DONE ∧
        (applyRuns j dts).remaining =
          (applyRuns j dts).duration - (s + (dts.map (·.1)).sum) ∧
        s + (dts.map (·.1)).sum < (applyRuns j dts).duration) ∨
      ((applyRuns j dts).status = .DONE ∧ (applyRuns j dts).remaining = 0 ∧
        (applyRuns j dts).duration ≤ s + (dts.map (·.1)).sum)) := by
  induction dts with
  | nil => intro j s _ hinv; simpa [applyRuns] using hinv
  | cons p dts ih =>
      intro j s hdts hinv
      have hstep := runStep_inv j p.1 p.2 s (hdts p (by simp)) hinv
      have := ih (j.runStep p.1 p.2) (s + p.1)
        (fun q hq => hdts q (by simp [hq])) hstep
      simpa [applyRuns, add_assoc] using this

end HelioSyn

namespace HelioSyn

/-! ## Claims C3, C4, C5 -/

/-- C3: `deadlineMissed(hour)` returns `true` exactly when the hour
exceeds the deadline, the status is not DONE and the job is not yet
flagged; it returns `false` whenever the job has no deadline; a `true`
result sets `penalized`; and across any call sequence on the job the
check reports `true` at most once. -/
theorem C3_deadlineMissed_once (j : Job ℚ) (h : ℚ) (ops : List (JobOp ℚ)) :
    ((j.deadlineMissed h).1 = true ↔
      ∃ d, j.deadline = some d ∧ d < h ∧ j.status ≠ .DONE ∧
        j.penalized = false) ∧
    (j.deadline = none → (j.deadlineMissed h).1 = false) ∧
    ((j.deadlineMissed h).1 = true →
      ((j.deadlineMissed h).2).penalized = true) ∧
    (runOps j ops).1 ≤ 1 := by
  refine ⟨?_, ?_, ?_, runOps_count_le_one ops j⟩
  · rcases hd : j.deadline with _ | d
    · simp [Job.deadlineMissed, hd]
    · simp only [Job.deadlineMissed, hd]
      split_ifs with hc
      · exact iff_of_true rfl ⟨d, rfl, hc.1, hc.2.1, hc.2.2⟩
      · refine iff_of_false (by simp) ?_
        rintro ⟨d', hd', hlt, hnd, hp⟩
        injection hd' with hdd
        subst hdd
        exact hc ⟨hlt, hnd, hp⟩
  · intro hd; simp [Job.deadlineMissed, hd]
  · intro ht
    rcases hd : j.deadline with _ | d
    · simp [Job.deadlineMissed, hd] at ht
    · simp only [Job.deadlineMissed, hd] at ht ⊢
      by_cases hc : d < h ∧ j.status ≠ JobStatus.DONE ∧ j.penalized = false
      · rw [if_pos hc]
      · rw [if_neg hc] at ht
        simp at ht

/-- C3 witness: a concrete job past its deadline is flagged, and a
five-operation sequence containing three checks reports at most one
miss. -/
theorem C3_witness :
    (jobC3.deadlineMissed (5 : ℚ)).1 = true ∧
      (runOps jobC3 opsC3).1 ≤ 1 :=
  ⟨(C3_deadlineMissed_once jobC3 5 opsC3).1.mpr
      ⟨3, rfl, by norm_num, by simp [jobC3], rfl⟩,
    (C3_deadlineMissed_once jobC3 5 opsC3).2.2.2⟩

/-- C4: `advance` (`runStep`) is a no-op on a DONE job; with a
non-negative `dt` the remaining time never increases and never becomes
negative; and for a freshly constructed job of positive duration driven
by any sequence of non-negative advances, the status is DONE exactly when
the advanced minutes reach the duration, DONE forcing `remaining = 0`.
(The positive-duration hypothesis is the documented caller precondition:
zero or negative durations are contract violations.) -/
theorem C4_runStep_lifecycle (id : Nat) (name prio : String) (power d : ℚ)
    (dl : Option ℚ) (flex : Bool) (dts : List (ℚ × ℚ))
    (hd : 0 < d) (hdts : ∀ p ∈ dts, 0 ≤ p.1) :
    (∀ (j : Job ℚ) (dt h : ℚ), j.status = .DONE → j.runStep dt h = j) ∧
    (∀ (j : Job ℚ) (dt h : ℚ), 0 ≤ dt → 0 ≤ j.remaining →
      (j.runStep dt h).remaining ≤ j.remaining ∧
        0 ≤ (j.runStep dt h).remaining) ∧
    ((applyRuns (Job.create id name power d prio dl flex) dts).status = .DONE
      ↔ d ≤ (dts.map (·.1)).sum) ∧
    ((applyRuns (Job.create id name power d prio dl flex) dts).status = .DONE
      → (applyRuns (Job.create id name power d prio dl flex) dts).remaining
          = 0) := by
  set j0 : Job ℚ := Job.create id name power d prio dl flex with hj0
  have hdur : (applyRuns j0 dts).duration = d := applyRuns_duration dts j0
  have hinv := applyRuns_inv dts j0 0 hdts
    (Or.inl ⟨by simp [hj0, Job.create], by simp [hj0, Job.create], by
      simpa [hj0, Job.create] using hd⟩)
  rw [hdur] at hinv
  refine ⟨runStep_of_done, fun j dt h h1 h2 => runStep_remaining j dt h h1 h2,
    ?_, ?_⟩
  · rcases hinv with ⟨hs, _, hlt⟩ | ⟨hs, _, hle⟩
    · exact ⟨fun h => absurd h hs, fun h => absurd h (by simpa using hlt)⟩
    · exact ⟨fun _ => by simpa using hle, fun _ => hs⟩
  · intro hDONE
    rcases hinv with ⟨hs, _, _⟩ | ⟨_, hr, _⟩
    · exact absurd hDONE hs
    · exact hr

/-- C4 witness: a fresh 60-minute job advanced by 30 then 40 minutes is
DONE with nothing remaining. -/
theorem C4_witness :
    (applyRuns (Job.create 7 "w" (1 : ℚ) 60 "high" none true) dtsC4).status
        = .DONE ∧
      (applyRuns (Job.create 7 "w" (1 : ℚ) 60 "high" none true) dtsC4).remaining
        = 0 := by
  have h := C4_runStep_lifecycle 7 "w" "high" 1 60 none true dtsC4
    (by norm_num) (by intro p hp; fin_cases hp <;> norm_num)
  exact ⟨h.2.2.1.mpr (by norm_num [dtsC4]),
    h.2.2.2 (h.2.2.1.mpr (by norm_num [dtsC4]))⟩

/-- C5: `urgencyScore(hour)` is 0 without a deadline, the fixed sentinel
999 when the deadline is at or before the hour, and otherwise the ratio
of hours of work left to hours until the deadline. -/
theorem C5_urgencyScore_sentinel (j : Job ℚ) (h : ℚ) :
    (j.deadline = none → j.urgencyScore h = 0) ∧
    (∀ d, j.deadline = some d →
      (d - h ≤ 0 → j.urgencyScore h = 999) ∧
      (0 < d - h → j.urgencyScore h = (j.remaining / 60) / (d - h))) := by
  constructor
  · intro hd; simp [Job.urgencyScore, hd]
  · intro d hd
    constructor
    · intro hle
      simp only [Job.urgencyScore, hd]
      rw [if_pos hle]
    · intro hlt
      simp only [Job.urgencyScore, hd]
      rw [if_neg (not_le.mpr hlt)]

/-- C5 witness: the concrete job scores 1/10 at hour 0 and the sentinel
999 at hour 20, past its deadline of 10. -/
theorem C5_witness :
    jobC5.urgencyScore (0 : ℚ) = 1 / 10 ∧
      jobC5.urgencyScore (20 : ℚ) = 999 := by
  constructor
  · rw [((C5_urgencyScore_sentinel jobC5 0).2 10 rfl).2 (by norm_num)]
    norm_num [jobC5]
  · exact ((C5_urgencyScore_sentinel jobC5 20).2 10 rfl).1 (by norm_num)

end HelioSyn

namespace HelioSyn

/-! ## Capacity lemmas for the two admission loops -/

variable {α : Type} [LinearOrderedField α]

theorem sumPow_nil : sumPow ([] : List (Job α)) = 0 := rfl

theorem sumPow_cons (j : Job α) (l : List (Job α)) :
    sumPow (j :: l) = j.powerKw + sumPow l := by
  simp [sumPow]

theorem scheduleLoop_sum (solar temp hour : α) (l : List (Job α)) :
    ∀ t : α, t ≤ MAX_DATA_HUB_POWER →
      sumPow (scheduleLoop solar temp hour l t) + t ≤ MAX_DATA_HUB_POWER := by
  induction l with
  | nil => intro t ht; simpa [scheduleLoop, sumPow_nil] using ht
  | cons job rest ih =>
      intro t ht
      rw [scheduleLoop]
      split_ifs with h1 h2 h3
      · exact ih t ht
      · exact ih t ht
      · have := ih (t + job.powerKw) h3
        rw [sumPow_cons]
        linarith
      · exact ih t ht

theorem scheduleLoop_subset (solar temp hour : α) (l : List (Job α)) :
    ∀ t : α, ∀ j ∈ scheduleLoop solar temp hour l t, j ∈ l := by
  induction l with
  | nil => intro t j hj; simp [scheduleLoop] at hj
  | cons job rest ih =>
      intro t j hj
      rw [scheduleLoop] at hj
      split_ifs at hj with h1 h2 h3
      · exact List.mem_cons_of_mem _ (ih t j hj)
      · exact List.mem_cons_of_mem _ (ih t j hj)
      · rcases List.mem_cons.mp hj with h | h
        · exact h ▸ List.mem_cons_self _ _
        · exact List.mem_cons_of_mem _ (ih (t + job.powerKw) j h)
      · exact List.mem_cons_of_mem _ (ih t j hj)

theorem scheduleLoop_no_medium_flexible (solar temp hour : α)
    (hs : solar < 1) (l : List (Job α)) :
    ∀ t : α, ∀ j ∈ scheduleLoop solar temp hour l t,
      ¬(j.priority = .medium ∧ j.flexible = true) := by
  induction l with
  | nil => intro t j hj; simp [scheduleLoop] at hj
  | cons job rest ih =>
      intro t j hj
      rw [scheduleLoop] at hj
      split_ifs at hj with h1 h2 h3
      · exact ih t j hj
      · exact ih t j hj
      · rcases List.mem_cons.mp hj with h | h
        · subst h
          rintro ⟨hm, hf⟩
          exact h2 ⟨hm, hs, hf⟩
        · exact ih (t + job.powerKw) j h
      · exact ih t j hj

theorem baselineLoop_spec (l : List (Job α)) :
    ∀ t : α,
      baselineLoop l t = l.take (baselineLoop l t).length ∧
      (∀ k, k ≠ 0 → k ≤ (baselineLoop l t).length →
        t + sumPow ((baselineLoop l t).take k) ≤ MAX_DATA_HUB_POWER) ∧
      (∀ j rest, l.drop (baselineLoop l t).length = j :: rest →
        ¬(t + sumPow (baselineLoop l t) + j.powerKw ≤ MAX_DATA_HUB_POWER)) := by
  induction l with
  | nil =>
      intro t
      refine ⟨rfl, fun k hk hk' => ?_, fun j rest hdrop => ?_⟩
      · simp [baselineLoop] at hk'
        omega
      · simp [baselineLoop] at hdrop
  | cons job rest ih =>
      intro t
      rw [baselineLoop]
      split_ifs with h1
      · obtain ⟨ihA, ihB, ihC⟩ := ih (t + job.powerKw)
        refine ⟨?_, ?_, ?_⟩
        · simpa [List.take_succ_cons] using ihA
        · intro k hk hk'
          cases k with
          | zero => exact absurd rfl hk
          | succ k' =>
              rw [List.take_succ_cons, sumPow_cons]
              cases Nat.eq_zero_or_pos k' with
              | inl h0 =>
                  subst h0
                  simpa [sumPow_nil] using h1
              | inr hpos =>
                  have := ihB k' (Nat.pos_iff_ne_zero.mp hpos)
                    (by simpa using hk')
                  linarith
        · intro j r hdrop
          rw [List.length_cons, List.drop_succ_cons] at hdrop
          have := ihC j r hdrop
          rw [sumPow_cons]
          intro hle
          exact this (by linarith)
      · refine ⟨rfl, fun k hk hk' => ?_, fun j r hdrop => ?_⟩
        · simp [List.length_nil] at hk'
          omega
        · simp only [List.length_nil, List.drop_zero] at hdrop
          injection hdrop with hj hr
          subst hj
          simpa [sumPow_nil] using h1


end HelioSyn

namespace HelioSyn

/-! ## Claims C1 and C6 -/

/-- C1 counterexample: with a 10 kW job already RUNNING and a 10 kW
critical job WAITING, `schedule` admits the waiting job because its
accumulator starts at 0 and ignores running jobs, so newly admitted power
plus already-running power reaches 20 kW, above the 10 kW capacity. -/
theorem C1_counterexample :
    ¬(sumPow (SmartScheduler.schedule [jobC1run, jobC1wait] (5 : ℚ) 20 0).1 +
        sumPow (([jobC1run, jobC1wait] : List (Job ℚ)).filter
          (fun j => j.status = .RUNNING)) ≤
      MAX_DATA_HUB_POWER) := by
  norm_num +decide [SmartScheduler.schedule, prioritizeJobs,
    List.insertionSort, List.orderedInsert, scheduleLoop, jobComparator,
    jobLe, Job.urgencyScore, sumPow, pMap, MAX_DATA_HUB_POWER,
    THERMAL_THRESHOLD, jobC1run, jobC1wait, List.filter_cons,
    List.filter_nil]

/-- C1 amended: the sum of `powerKw` over the jobs newly admitted by one
`SmartScheduler.schedule` call never exceeds `MAX_DATA_HUB_POWER` (the
accumulator starts at 0, so power already committed to RUNNING jobs is
not counted against the capacity). -/
theorem C1_admitted_within_capacity (jobs : List (Job ℚ))
    (solar temp hour : ℚ) :
    sumPow (SmartScheduler.schedule jobs solar temp hour).1 ≤
      MAX_DATA_HUB_POWER := by
  have h := scheduleLoop_sum solar temp hour
    (prioritizeJobs (jobs.filter (fun j => j.status = .WAITING)) hour)
    0 (by norm_num [MAX_DATA_HUB_POWER])
  simpa [SmartScheduler.schedule] using h

/-- C6: the baseline FIFO admits a prefix of the WAITING jobs in
submission order, every admitted prefix keeps
`BASELINE_BACKGROUND_LOAD + cumulative power` within capacity, and the
first job that would exceed capacity stops the loop with no later job
admitted, whatever its priority or power. -/
theorem C6_baseline_fifo (jobs : List (Job ℚ)) (hour : ℚ) :
    (BaselineScheduler.schedule jobs hour).1 =
      (jobs.filter (fun j => j.status = .WAITING)).take
        (BaselineScheduler.schedule jobs hour).1.length ∧
    (∀ k, k ≠ 0 → k ≤ (BaselineScheduler.schedule jobs hour).1.length →
      BASELINE_BACKGROUND_LOAD +
          sumPow ((BaselineScheduler.schedule jobs hour).1.take k) ≤
        MAX_DATA_HUB_POWER) ∧
    (∀ j rest,
      (jobs.filter (fun j => j.status = .WAITING)).drop
          (BaselineScheduler.schedule jobs hour).1.length = j :: rest →
      ¬(BASELINE_BACKGROUND_LOAD +
          sumPow (BaselineScheduler.schedule jobs hour).1 + j.powerKw ≤
        MAX_DATA_HUB_POWER)) := by
  have h := baselineLoop_spec
    (jobs.filter (fun j => j.status = .WAITING))
    (BASELINE_BACKGROUND_LOAD : ℚ)
  simpa [BaselineScheduler.schedule] using h

/-- C6 witness: on the catalog 5 kW, 8 kW, 1 kW the loop admits only the
first job (3 + 5 ≤ 10 but 8 + 8 > 10), and the blocking 8 kW job
certifies the hard stop: even the later 1 kW critical job is not
admitted. -/
theorem C6_witness :
    ¬(BASELINE_BACKGROUND_LOAD +
        sumPow (BaselineScheduler.schedule [jobC6a, jobC6b, jobC6c] (0 : ℚ)).1 +
        jobC6b.powerKw ≤ MAX_DATA_HUB_POWER) :=
  (C6_baseline_fifo [jobC6a, jobC6b, jobC6c] 0).2.2 jobC6b [jobC6c]
    (by norm_num +decide [BaselineScheduler.schedule, baselineLoop,
      BASELINE_BACKGROUND_LOAD, MAX_DATA_HUB_POWER, jobC6a, jobC6b, jobC6c,
      List.filter_cons, List.filter_nil])

end HelioSyn

namespace HelioSyn

/-! ## The solar-preference skip through whole runs -/

variable {α : Type} [LinearOrderedField α]

theorem schedule_admitted_not_medium_flexible (jobs : List (Job α))
    (solar temp hour : α) (hs : solar < 1) :
    ∀ j ∈ (SmartScheduler.schedule jobs solar temp hour).1,
      ¬(j.priority = .medium ∧ j.flexible = true) := by
  intro j hj
  have hmem : j ∈ scheduleLoop solar temp hour
      (prioritizeJobs (jobs.filter (fun j' => j'.status = .WAITING)) hour)
      0 := hj
  exact scheduleLoop_no_medium_flexible solar temp hour hs _ 0 j hmem

theorem schedule_keeps_excluded (jobs : List (Job α))
    (solar temp hour : α) (hs : solar < 1) (i : Nat)
    (hQ : ∀ j ∈ jobs, j.id = i →
      j.priority = .medium ∧ j.flexible = true ∧ j.status = .WAITING) :
    ∀ j ∈ (SmartScheduler.schedule jobs solar temp hour).2, j.id = i →
      j.priority = .medium ∧ j.flexible = true ∧ j.status = .WAITING := by
  intro j hj hid
  have hrepr : (SmartScheduler.schedule jobs solar temp hour).2 =
      jobs.map (fun j' =>
        if ((SmartScheduler.schedule jobs solar temp hour).1.map
            (·.id)).contains j'.id
        then j'.start hour else j') := rfl
  rw [hrepr] at hj
  rcases List.mem_map.mp hj with ⟨j0, hj0, hfj⟩
  have hid0 : j0.id = i := by
    by_cases hc : ((SmartScheduler.schedule jobs solar temp hour).1.map
        (·.id)).contains j0.id
    · rw [if_pos hc] at hfj
      rw [← hfj] at hid
      rwa [(start_fields j0 hour).1] at hid
    · rw [if_neg hc] at hfj
      rw [← hfj] at hid
      exact hid
  have htriple := hQ j0 hj0 hid0
  have hnotadm : ¬((SmartScheduler.schedule jobs solar temp hour).1.map
      (·.id)).contains j0.id := by
    intro hc
    have hc' : j0.id ∈ (SmartScheduler.schedule jobs solar temp hour).1.map
        (·.id) := by simpa using hc
    rcases List.mem_map.mp hc' with ⟨a, ha, haid⟩
    have ha0 : a ∈ scheduleLoop solar temp hour
        (prioritizeJobs (jobs.filter (fun j' => j'.status = .WAITING)) hour)
        0 := ha
    have hamem : a ∈ jobs := by
      have h1 := scheduleLoop_subset solar temp hour _ 0 a ha0
      have h2 := (List.mem_insertionSort (jobLe hour)).mp h1
      exact List.mem_of_mem_filter h2
    have haid' : a.id = j0.id := haid
    have haQ := hQ a hamem (by rw [haid']; exact hid0)
    exact schedule_admitted_not_medium_flexible jobs solar temp hour hs a ha
      ⟨haQ.1, haQ.2.1⟩
  rw [if_neg hnotadm] at hfj
  rw [← hfj]
  exact htriple

theorem engineJobsStep_keeps (solar temp hour dt : α) (hs : solar < 1)
    (i : Nat) (jobs : List (Job α))
    (hQ : ∀ j ∈ jobs, j.id = i →
      j.priority = .medium ∧ j.flexible = true ∧ j.status = .WAITING) :
    ∀ j ∈ engineJobsStep solar temp hour dt jobs, j.id = i →
      j.priority = .medium ∧ j.flexible = true ∧ j.status = .WAITING := by
  have hQadv : ∀ j ∈ jobs.map (fun j' =>
      if j'.status = .RUNNING then j'.runStep dt hour else j'), j.id = i →
      j.priority = .medium ∧ j.flexible = true ∧ j.status = .WAITING := by
    intro j hj hid
    rcases List.mem_map.mp hj with ⟨j0, hj0, hfj⟩
    have hid0 : j0.id = i := by
      by_cases hc : j0.status = JobStatus.RUNNING
      · rw [if_pos hc] at hfj
        rw [← hfj, (runStep_fields j0 dt hour).1] at hid
        exact hid
      · rw [if_neg hc] at hfj
        rw [← hfj] at hid
        exact hid
    have htriple := hQ j0 hj0 hid0
    have hc : ¬j0.status = JobStatus.RUNNING := by
      rw [htriple.2.2]
      simp
    rw [if_neg hc] at hfj
    rw [← hfj]
    exact htriple
  intro j hj hid
  rcases List.mem_map.mp hj with ⟨j1, hj1, hfj⟩
  have hQsched := schedule_keeps_excluded _ solar temp hour hs i hQadv
  have hid1 : j1.id = i := by
    rw [← hfj, (deadlineMissed_fields j1 hour).1] at hid
    exact hid
  have htriple := hQsched j1 hj1 hid1
  have hf := deadlineMissed_fields j1 hour
  rw [← hfj]
  exact ⟨hf.2.2.1 ▸ htriple.1, hf.2.2.2.1 ▸ htriple.2.1, hf.2.1 ▸ htriple.2.2⟩

theorem runEngineSteps_keeps (steps : List (α × α × α)) (dt : α) (i : Nat) :
    ∀ jobs : List (Job α), (∀ s ∈ steps, s.1 = 0) →
    (∀ j ∈ jobs, j.id = i →
      j.priority = .medium ∧ j.flexible = true ∧ j.status = .WAITING) →
    ∀ j ∈ runEngineSteps steps dt jobs, j.id = i →
      j.priority = .medium ∧ j.flexible = true ∧ j.status = .WAITING := by
  induction steps with
  | nil => intro jobs _ hQ; simpa [runEngineSteps] using hQ
  | cons s steps ih =>
      intro jobs hsteps hQ
      have hs0 : s.1 = 0 := hsteps s (by simp)
      have hstep := engineJobsStep_keeps s.1 s.2.1 s.2.2 dt
        (by rw [hs0]; norm_num) i jobs hQ
      have := ih (engineJobsStep s.1 s.2.1 s.2.2 dt jobs)
        (fun q hq => hsteps q (by simp [hq])) hstep
      simpa [runEngineSteps] using this

end HelioSyn

namespace HelioSyn

/-! ## Claim C7 -/

/-- C7: with `solarAvailableKw < 1`, one `SmartScheduler.schedule` call
never admits a medium-priority flexible job; and across any run whose
steps all have zero solar availability, a medium-priority flexible
WAITING job stays WAITING to the end. -/
theorem C7_medium_waits_for_solar :
    (∀ (jobs : List (Job ℚ)) (solar temp hour : ℚ), solar < 1 →
      ∀ j ∈ (SmartScheduler.schedule jobs solar temp hour).1,
        ¬(j.priority = .medium ∧ j.flexible = true)) ∧
    (∀ (steps : List (ℚ × ℚ × ℚ)) (dt : ℚ) (jobs : List (Job ℚ)) (i : Nat),
      (∀ s ∈ steps, s.1 = 0) →
      (∀ j ∈ jobs, j.id = i →
        j.priority = .medium ∧ j.flexible = true ∧ j.status = .WAITING) →
      ∀ j ∈ runEngineSteps steps dt jobs, j.id = i → j.status = .WAITING) :=
  ⟨fun jobs solar temp hour hs =>
      schedule_admitted_not_medium_flexible jobs solar temp hour hs,
    fun steps dt jobs i hsteps hQ j hj hid =>
      (runEngineSteps_keeps steps dt i jobs hsteps hQ j hj hid).2.2⟩

/-- C7 witness: a concrete medium flexible job is untouched by two
zero-solar engine steps and stays WAITING. -/
theorem C7_witness : jobC7.status = .WAITING := by
  have hev : runEngineSteps stepsC7 (10 : ℚ) [jobC7] = [jobC7] := by
    norm_num +decide [runEngineSteps, engineJobsStep, stepsC7,
      SmartScheduler.schedule, prioritizeJobs, List.insertionSort,
      List.orderedInsert, scheduleLoop, jobComparator, jobLe,
      Job.urgencyScore, Job.deadlineMissed, Job.runStep, Job.start, pMap,
      MAX_DATA_HUB_POWER, THERMAL_THRESHOLD, jobC7, List.filter_cons,
      List.filter_nil]
  exact C7_medium_waits_for_solar.2 stepsC7 10 [jobC7] 0
    (by intro s hs; fin_cases hs <;> rfl)
    (by intro j hj _; rcases List.mem_singleton.mp hj with rfl;
        exact ⟨rfl, rfl, rfl⟩)
    jobC7 (by rw [hev]; exact List.mem_singleton_self jobC7) rfl

end HelioSyn

namespace HelioSyn

/-! ## Order-theoretic facts about the comparator sort

The comparator is antisymmetric (`cmp a b = -cmp b a`), so its ≤-0
relation is total; a stable sort on a total relation leaves every pair of
*adjacent* elements related, and the priority-class ordering, being
transitive, extends to all pairs.  The urgency tolerance is *not*
transitive, which is exactly what claim C8's counterexample exploits. -/

variable {α : Type} [LinearOrderedField α]

theorem jobComparator_antisymm (h : α) (a b : Job α) :
    jobComparator h a b = -jobComparator h b a := by
  by_cases hp : pMap a.priority = pMap b.priority
  · simp only [jobComparator,
      if_neg (show ¬(pMap a.priority ≠ pMap b.priority) by simp [hp]),
      if_neg (show ¬(pMap b.priority ≠ pMap a.priority) by simp [hp])]
    rw [abs_sub_comm (b.urgencyScore h) (a.urgencyScore h)]
    split_ifs <;> ring
  · simp only [jobComparator, if_pos hp, if_pos (Ne.symm hp)]
    push_cast
    ring

theorem jobLe_total (h : α) (a b : Job α) : jobLe h a b ∨ jobLe h b a := by
  unfold jobLe
  rcases le_total (jobComparator h a b) 0 with hle | hge
  · exact Or.inl hle
  · right
    have := jobComparator_antisymm h a b
    linarith

theorem jobLe_pMap (h : α) (a b : Job α) (hab : jobLe h a b) :
    pMap a.priority ≤ pMap b.priority := by
  unfold jobLe jobComparator at hab
  by_cases hp : pMap a.priority = pMap b.priority
  · exact le_of_eq hp
  · rw [if_pos hp] at hab
    have : (pMap a.priority - pMap b.priority : Int) ≤ 0 := by
      exact_mod_cast hab
    omega

theorem jobLe_eq_class (h : α) (a b : Job α) (hab : jobLe h a b)
    (hp : pMap a.priority = pMap b.priority) :
    (1 / 10 < |a.urgencyScore h - b.urgencyScore h| →
      b.urgencyScore h < a.urgencyScore h) ∧
    (|a.urgencyScore h - b.urgencyScore h| ≤ 1 / 10 →
      a.powerKw ≤ b.powerKw) := by
  unfold jobLe jobComparator at hab
  rw [if_neg (by simp [hp])] at hab
  constructor
  · intro hgap
    rw [if_pos hgap] at hab
    have hne : b.urgencyScore h ≠ a.urgencyScore h := by
      intro he
      rw [he] at hgap
      simp at hgap
      linarith
    exact lt_of_le_of_ne (by linarith) hne
  · intro hgap
    rw [if_neg (not_lt.mpr hgap)] at hab
    linarith

theorem chain'_orderedInsert {β : Type} (R : β → β → Prop) [DecidableRel R]
    (htot : ∀ a b, R a b ∨ R b a) (a : β) :
    ∀ l : List β, l.Chain' R → (l.orderedInsert R a).Chain' R := by
  intro l
  induction l with
  | nil => intro _; simp [List.orderedInsert]
  | cons b l ih =>
      intro hchain
      rw [List.orderedInsert]
      split_ifs with hab
      · exact List.chain'_cons.mpr ⟨hab, hchain⟩
      · have hba : R b a := (htot a b).resolve_left hab
        have hins := ih hchain.tail
        rw [List.chain'_cons']
        refine ⟨?_, hins⟩
        intro y hy
        cases l with
        | nil =>
            simp [List.orderedInsert] at hy
            subst hy
            exact hba
        | cons c l' =>
            rw [List.orderedInsert] at hy
            split_ifs at hy with hac
            · simp at hy
              subst hy
              exact hba
            · simp at hy
              subst hy
              exact (List.chain'_cons.mp hchain).1

theorem chain'_insertionSort {β : Type} (R : β → β → Prop) [DecidableRel R]
    (htot : ∀ a b, R a b ∨ R b a) (l : List β) :
    (l.insertionSort R).Chain' R := by
  induction l with
  | nil => simp [List.insertionSort]
  | cons a l ih =>
      rw [List.insertionSort]
      exact chain'_orderedInsert R htot a _ ih

end HelioSyn

namespace HelioSyn

/-! ## Claim C8 -/

/-- C8 counterexample: on three equal-priority jobs with urgency scores
1/100, 1/10 and 19/100 (pairwise gaps 0.09, 0.09, 0.18) and powers 1, 2,
3, the claimed ordering is cyclic — power forces a before b before c
while urgency forces c before a — so the sorted output cannot satisfy it:
the produced order `[a, b, c]` violates the urgency rule on the pair
(a, c). -/
theorem C8_counterexample :
    ¬claimedSortSpec (0 : ℚ) (prioritizeJobs [jobC8a, jobC8b, jobC8c] 0) := by
  have hev : prioritizeJobs [jobC8a, jobC8b, jobC8c] (0 : ℚ) =
      [jobC8a, jobC8b, jobC8c] := by
    norm_num +decide [prioritizeJobs, List.insertionSort, List.orderedInsert,
      jobComparator, jobLe, Job.urgencyScore, pMap, jobC8a, jobC8b, jobC8c,
      abs_of_nonneg, abs_of_nonpos]
  rw [hev]
  intro h
  have h13 : claimedSortRel (0 : ℚ) jobC8a jobC8c :=
    (List.pairwise_cons.mp h).1 jobC8c (by simp)
  have hgap : (1 : ℚ) / 10 <
      |jobC8a.urgencyScore 0 - jobC8c.urgencyScore 0| := by
    norm_num [Job.urgencyScore, jobC8a, jobC8c, abs_of_nonpos, abs_of_nonneg]
  have hlt := (h13.2 rfl).1 hgap
  norm_num [Job.urgencyScore, jobC8a, jobC8c] at hlt

/-- C8 amended: the sorted candidate list is a permutation of the input;
priority classes appear in non-decreasing `pMap` order across the whole
list (critical before high before medium before low); and the urgency /
power tie-break rules hold between *adjacent* jobs of equal class:
descending urgency when their gap exceeds 0.1, otherwise ascending power.
(The 0.1 tolerance is not transitive, so the tie-break rules cannot hold
for all non-adjacent equal-class pairs, as the counterexample shows.) -/
theorem C8_sort_order (jobs : List (Job ℚ)) (hour : ℚ) :
    (prioritizeJobs jobs hour).Perm jobs ∧
    (prioritizeJobs jobs hour).Pairwise
      (fun a b => pMap a.priority ≤ pMap b.priority) ∧
    (prioritizeJobs jobs hour).Chain'
      (fun a b => pMap a.priority = pMap b.priority →
        ((1 / 10 < |a.urgencyScore hour - b.urgencyScore hour| →
            b.urgencyScore hour < a.urgencyScore hour) ∧
         (|a.urgencyScore hour - b.urgencyScore hour| ≤ 1 / 10 →
            a.powerKw ≤ b.powerKw))) := by
  have hchain := chain'_insertionSort (jobLe hour) (jobLe_total hour) jobs
  refine ⟨List.perm_insertionSort _ jobs, ?_, ?_⟩
  · haveI : IsTrans (Job ℚ)
        (fun a b => pMap a.priority ≤ pMap b.priority) :=
      ⟨fun _ _ _ hab hbc => le_trans hab hbc⟩
    exact List.chain'_iff_pairwise.mp
      (hchain.imp (fun a b hab => jobLe_pMap hour a b hab))
  · exact hchain.imp (fun a b hab hp => jobLe_eq_class hour a b hab hp)

end HelioSyn

namespace HelioSyn

/-! ## Claim C2 -/

/-- C2 counterexample: a job specification with `deadlineHour = 5` is
built into a Job whose deadline is the hard-coded 18, not 5. -/
theorem C2_counterexample :
    ¬((buildJob 0 appC2).deadline = appC2.deadlineHour) := by
  simp [buildJob, Job.create, appC2]

/-- C2 amended: the simulation entry point builds every Job with the
constant deadline 18, ignoring the specification's `deadlineHour`; the
duration is `durationHours * 60` minutes when `durationHours` is present
and non-zero, and the 120-minute default otherwise. -/
theorem C2_job_construction (app : ApplianceSpec ℚ) (i : Nat) :
    (buildJob i app).deadline = some 18 ∧
    (app.duration = none → (buildJob i app).duration = 120) ∧
    (∀ d, app.duration = some d → d ≠ 0 →
      (buildJob i app).duration = d * 60) ∧
    (app.duration = some 0 → (buildJob i app).duration = 120) := by
  refine ⟨rfl, ?_, ?_, ?_⟩
  · intro hd; simp [buildJob, Job.create, hd]
  · intro d hd hne; simp [buildJob, Job.create, hd, hne]
  · intro hd; simp [buildJob, Job.create, hd]

/-- C2 witness: the concrete 2-hour specification with `deadlineHour = 5`
yields duration 120 minutes and the constant deadline 18. -/
theorem C2_witness :
    (buildJob 0 appC2).duration = 120 ∧
      (buildJob 0 appC2).deadline = some 18 := by
  constructor
  · have h := (C2_job_construction appC2 0).2.2.1 2 rfl (by norm_num)
    rw [h]; norm_num
  · exact (C2_job_construction appC2 0).1

end HelioSyn

namespace HelioSyn

/-! ## Claim C9 -/

theorem irradianceCore_pos (S CT TR : ℝ) (hS : 0 < S) :
    0 < max 0 (beamNormalIrradiance S * max 0 CT +
      0.095 * beamNormalIrradiance S * ((1 + Real.cos TR) / 2) +
      beamNormalIrradiance S * (S + 0.095) * 0.2 *
        ((1 - Real.cos TR) / 2)) := by
  have hIbn : 0 < beamNormalIrradiance S := by
    unfold beamNormalIrradiance
    positivity
  have hc1 : -1 ≤ Real.cos TR := Real.neg_one_le_cos TR
  have hc2 : Real.cos TR ≤ 1 := Real.cos_le_one TR
  have hS95 : 0 < S + 0.095 := by linarith
  have hbeam : 0 ≤ beamNormalIrradiance S * max 0 CT :=
    mul_nonneg hIbn.le (le_max_left _ _)
  have hdiffnn : 0 ≤ 0.095 * beamNormalIrradiance S *
      ((1 + Real.cos TR) / 2) :=
    mul_nonneg (mul_nonneg (by norm_num) hIbn.le) (by linarith)
  have hreflnn : 0 ≤ beamNormalIrradiance S * (S + 0.095) * 0.2 *
      ((1 - Real.cos TR) / 2) :=
    mul_nonneg (mul_nonneg (mul_nonneg hIbn.le hS95.le) (by norm_num))
      (by linarith)
  apply lt_max_of_lt_right
  rcases eq_or_lt_of_le hc1 with heq | hlt
  · have h2 : (1 - Real.cos TR) / 2 = 1 := by rw [← heq]; norm_num
    have hreflpos : 0 < beamNormalIrradiance S * (S + 0.095) * 0.2 *
        ((1 - Real.cos TR) / 2) := by
      rw [h2, mul_one]
      exact mul_pos (mul_pos hIbn hS95) (by norm_num)
    linarith
  · have hdiffpos : 0 < 0.095 * beamNormalIrradiance S *
        ((1 + Real.cos TR) / 2) :=
      mul_pos (mul_pos (by norm_num) hIbn) (by linarith)
    linarith

/-- C9: `calculateIrradiance` returns exactly 0 whenever the solar
altitude sine is non-positive, is never negative, and is strictly
positive at solar noon (hour 12) whenever the sun is above the horizon
there. -/
theorem C9_irradiance_sign (dayOfYear hour latitude : ℝ) (tilt : Option ℝ) :
    (solarSinAlpha dayOfYear hour latitude ≤ 0 →
      calculateIrradiance dayOfYear hour latitude tilt = 0) ∧
    (0 ≤ calculateIrradiance dayOfYear hour latitude tilt) ∧
    (0 < solarSinAlpha dayOfYear 12 latitude →
      0 < calculateIrradiance dayOfYear 12 latitude tilt) := by
  refine ⟨?_, ?_, ?_⟩
  · intro hneg
    simp only [calculateIrradiance]
    rw [if_pos hneg]
  · simp only [calculateIrradiance]
    split_ifs
    · exact le_refl 0
    · exact le_max_left 0 _
  · intro hpos
    simp only [calculateIrradiance]
    rw [if_neg (not_le.mpr hpos)]
    exact irradianceCore_pos _ _ _ hpos

/-- The declination on day 172 stays within ±23.45°, so its radian value
lies strictly inside (-π/2, π/2) and its cosine is positive. -/
theorem cos_declination_pos : 0 < Real.cos (solarDeclination 172 * D2R) := by
  have hD2R : 0 < D2R := by
    unfold D2R
    positivity
  have hδbound : |solarDeclination 172| ≤ 23.45 := by
    unfold solarDeclination
    rw [abs_mul]
    have hs : |Real.sin ((360 / 365) * (284 + 172) * D2R)| ≤ 1 :=
      abs_le.mpr ⟨Real.neg_one_le_sin _, Real.sin_le_one _⟩
    calc |(23.45 : ℝ)| * |Real.sin ((360 / 365) * (284 + 172) * D2R)|
        ≤ |(23.45 : ℝ)| * 1 := by
          exact mul_le_mul_of_nonneg_left hs (abs_nonneg _)
      _ = 23.45 := by norm_num
  have habs : |solarDeclination 172 * D2R| < Real.pi / 2 := by
    rw [abs_mul, abs_of_pos hD2R]
    have h1 : |solarDeclination 172| * D2R ≤ 23.45 * D2R :=
      mul_le_mul_of_nonneg_right hδbound hD2R.le
    have h2 : 23.45 * D2R < Real.pi / 2 := by
      unfold D2R
      have := Real.pi_pos
      linarith
    linarith
  exact Real.cos_pos_of_mem_Ioo ⟨(abs_lt.mp habs).1, (abs_lt.mp habs).2⟩

theorem solarSinAlpha_noon :
    solarSinAlpha 172 12 0 = Real.cos (solarDeclination 172 * D2R) := by
  unfold solarSinAlpha
  norm_num

theorem solarSinAlpha_midnight :
    solarSinAlpha 172 0 0 = -Real.cos (solarDeclination 172 * D2R) := by
  unfold solarSinAlpha
  have harg : 15 * ((0 : ℝ) - 12) * D2R = -Real.pi := by
    unfold D2R
    ring
  rw [harg]
  norm_num [Real.cos_pi]

/-- C9 witness: at the equator on day 172 the irradiance is exactly 0 at
hour 0 (sun below the horizon) and strictly positive at solar noon. -/
theorem C9_witness :
    calculateIrradiance 172 0 0 none = 0 ∧
      0 < calculateIrradiance 172 12 0 none := by
  have hδ := cos_declination_pos
  constructor
  · exact (C9_irradiance_sign 172 0 0 none).1
      (by rw [solarSinAlpha_midnight]; linarith)
  · exact (C9_irradiance_sign 172 0 0 none).2.2
      (by rw [solarSinAlpha_noon]; exact hδ)

end HelioSyn

namespace HelioSyn

/-! ## Claim C10: engine invariants on the empty catalog -/

theorem lookup_const (data : List StandardizedPoint) (v h : ℝ)
    (hne : data ≠ []) (hv : ∀ p ∈ data, p.value = v)
    (h0 : 0 ≤ h) (hlen : h < (data.length : ℝ)) :
    createLookup data h = some v := by
  unfold createLookup
  rw [if_neg (by simp [List.isEmpty_iff, hne])]
  rcases hfind : data.reverse.find? (fun p => decide (p.timestamp = some h))
    with _ | p
  · simp only [hfind]
    have hidx0 : (0 : ℤ) ≤ ⌊h⌋ := Int.floor_nonneg.mpr h0
    rw [if_neg (not_lt.mpr hidx0)]
    have hlt : ⌊h⌋ < (data.length : ℤ) :=
      Int.floor_lt.mpr (by exact_mod_cast hlen)
    have hnat : ⌊h⌋.toNat < data.length := by omega
    rw [List.get?_eq_get hnat]
    exact congrArg some (hv _ (List.get_mem data _ _))
  · simp only [hfind]
    have hp : p ∈ data.reverse := List.mem_of_find?_eq_some hfind
    rw [hv p (List.mem_reverse.mp hp)]

theorem simStep_zero_load (getSolar getTemp : ℝ → Option ℝ)
    (config : SimConfig) (s : SimState)
    (hsolar : getSolar s.currentHour = some 5)
    (htemp : getTemp s.currentHour = some 25)
    (hjobs : s.jobs = []) (hrun : s.runningIds = [])
    (hse : s.solarEnergy = 0) (hge : s.gridEnergy = 0)
    (hce : s.coolingEnergy = 0) (htempb : s.currentTemp ≤ 25) :
    (simStep true getSolar getTemp config s).jobs = [] ∧
    (simStep true getSolar getTemp config s).runningIds = [] ∧
    (simStep true getSolar getTemp config s).solarEnergy = 0 ∧
    (simStep true getSolar getTemp config s).gridEnergy = 0 ∧
    (simStep true getSolar getTemp config s).coolingEnergy = 0 ∧
    (simStep true getSolar getTemp config s).currentTemp ≤ 25 ∧
    (simStep true getSolar getTemp config s).currentHour =
      s.currentHour + TIME_STEP_MINUTES / 60 := by
  have hcool : getCoolingPowerKw s.currentTemp 0 = 0 := by
    unfold getCoolingPowerKw
    rw [if_pos (show s.currentTemp ≤ (TEMP_THRESHOLD : ℝ) from htempb)]
  refine ⟨?_, ?_, ?_, ?_, ?_, ?_, ?_⟩ <;>
    simp only [simStep, hjobs, hrun, hsolar, htemp, hse, hge, hce,
      List.map_nil, List.filter_nil, SmartScheduler.schedule,
      prioritizeJobs, List.insertionSort, scheduleLoop, deadlinePass,
      sumPow, hcool, List.append_nil, List.nil_append, if_true,
      List.sum_nil, List.contains_nil]
  · norm_num
  · norm_num [hcool]
  · norm_num [hcool]
  · have hmin : min (0 : ℝ) 5 = 0 := by norm_num
    simp only [hmin, hcool, HEAT_ACCUMULATION, COOLING_EFFICIENCY,
      THERMAL_DISSIPATION]
    norm_num
    show s.currentTemp ≤ 25 + 1 / 20 * (s.currentTemp - 25)
    linarith [htempb]

theorem simLoop_zero_load (getSolar getTemp : ℝ → Option ℝ)
    (config : SimConfig)
    (hsolar : ∀ h : ℝ, 0 ≤ h → h < 24 → getSolar h = some 5)
    (htemp : ∀ h : ℝ, 0 ≤ h → h < 24 → getTemp h = some 25) :
    ∀ (n : Nat) (s : SimState),
      s.jobs = [] → s.runningIds = [] → s.solarEnergy = 0 →
      s.gridEnergy = 0 → s.coolingEnergy = 0 → s.currentTemp ≤ 25 →
      0 ≤ s.currentHour →
      (simLoop true getSolar getTemp config n s).solarEnergy = 0 ∧
      (simLoop true getSolar getTemp config n s).gridEnergy = 0 ∧
      (simLoop true getSolar getTemp config n s).coolingEnergy = 0 := by
  intro n
  induction n with
  | zero =>
      intro s _ _ h3 h4 h5 _ _
      exact ⟨h3, h4, h5⟩
  | succ n ih =>
      intro s h1 h2 h3 h4 h5 h6 h7
      rw [simLoop]
      split_ifs with hguard
      · have hs24 : s.currentHour < 24 := by
          simpa [SIMULATION_END_HOUR] using hguard
        have hstep := simStep_zero_load getSolar getTemp config s
          (hsolar _ h7 hs24) (htemp _ h7 hs24) h1 h2 h3 h4 h5 h6
        refine ih _ hstep.1 hstep.2.1 hstep.2.2.1 hstep.2.2.2.1
          hstep.2.2.2.2.1 hstep.2.2.2.2.2.1 ?_
        rw [hstep.2.2.2.2.2.2]
        have h10 : (TIME_STEP_MINUTES : ℝ) / 60 = 10 / 60 := rfl
        rw [h10]
        linarith
      · exact ⟨h3, h4, h5⟩

theorem constSolarData_lookup (h : ℝ) (h0 : 0 ≤ h) (h24 : h < 24) :
    createLookup constSolarData h = some 5 := by
  apply lookup_const
  · simp [constSolarData]
  · intro p hp
    simp only [constSolarData, List.mem_map] at hp
    rcases hp with ⟨i, _, rfl⟩
    rfl
  · exact h0
  · have hlen24 : (constSolarData.length : ℝ) = 24 := by
      simp only [constSolarData, List.length_map, List.length_range]
      norm_num
    rw [hlen24]
    exact h24

theorem constTempData_lookup (h : ℝ) (h0 : 0 ≤ h) (h24 : h < 24) :
    createLookup constTempData h = some 25 := by
  apply lookup_const
  · simp [constTempData]
  · intro p hp
    simp only [constTempData, List.mem_map] at hp
    rcases hp with ⟨i, _, rfl⟩
    rfl
  · exact h0
  · have hlen24 : (constTempData.length : ℝ) = 24 := by
      simp only [constTempData, List.length_map, List.length_range]
      norm_num
    rw [hlen24]
    exact h24

/-- C10: on the valid input consisting of an empty job catalog together
with historical ambient temperatures pinned at the cooling threshold
(and constant solar data), no energy is ever drawn, so the solar and grid
accumulators both end at 0 and the unguarded percentage quotient
`solarEnergy / (solarEnergy + gridEnergy)` is the JavaScript `0/0`: the
returned `energy.solarPct` is the NaN marker, not a finite number. -/
theorem C10_solar_pct_nan :
    (runSmartSimulation [] constSolarData constTempData {} true).energy.solar
        = 0 ∧
    (runSmartSimulation [] constSolarData constTempData {} true).energy.grid
        = 0 ∧
    (runSmartSimulation [] constSolarData constTempData {}
        true).energy.cooling = 0 ∧
    (runSmartSimulation [] constSolarData constTempData {} true).energy.total
        = 0 ∧
    (runSmartSimulation [] constSolarData constTempData {}
        true).energy.solarPct = none := by
  have hloop := simLoop_zero_load (createLookup constSolarData)
    (createLookup constTempData) {} constSolarData_lookup
    constTempData_lookup 1000
    { jobs := ([] : List (ApplianceSpec ℝ)).enum.map (fun p => buildJob p.1 p.2)
      runningIds := [], gridEnergy := 0, solarEnergy := 0
      coolingEnergy := 0, carbon := 0, slaViolations := 0
      accumulatedCost := 0, currentTemp := IDEAL_TEMP
      currentHour := SIMULATION_START_HOUR
      logs := ⟨[], [], [], [], [], []⟩ }
    rfl rfl rfl rfl rfl (le_refl _) (le_refl _)
  obtain ⟨hse, hge, hce⟩ := hloop
  simp only [runSmartSimulation]
  refine ⟨hse, ?_, hce, ?_, ?_⟩
  · rw [hge, hce]; norm_num
  · rw [hse, hge]; norm_num
  · rw [hse, hge]
    norm_num [jsDiv]

end HelioSyn
